import Mathlib

/-!
# Verification of `oidc-kit` (`main.ts`)

A shallow embedding of the browser OIDC helper in `src/main.ts`.  The external
`oidc-client-ts` library is an opaque collaborator: each of its calls is
modelled as an oracle response recorded in the input world (`Except` for calls
that may throw, `Option` for nullable results).  The browser URL is modelled
structurally (`Url`), with `URLSearchParams` semantics on an ordered list of
key/value pairs.  A redirect that the code issues and then blocks behind a
never-resolving promise is modelled as a terminal result constructor: reaching
it means the function has triggered navigation and never returns control.

`main.ts` contains two concatenated copies of the module: the first (lines
1-138) takes a restricted `AuthenticateOptions`, the second (lines 140-382)
takes full `UserManagerSettings`.  The configuration object is passed verbatim
to the library constructor and influences behaviour only through the library's
responses, which are already the oracle inputs here, so it does not appear as
a parameter of the embedded decision procedures.  The second copy is embedded
separately in namespace `Full`.
-/

set_option autoImplicit false

namespace OidcKit

/-- JavaScript truthiness applied to an optional string: `undefined`/`null`
and the empty string are falsy, every other string is truthy.  Used wherever
the source writes `if (s)` or `s ? ... : ...` on a string-valued expression. -/
def jsTruthy : Option String → Option String
  | some s => if s = "" then none else some s
  | none => none

/-- `URLSearchParams.has(k)`: some pair with key `k` exists. -/
def hasParam (ps : List (String × String)) (k : String) : Bool :=
  ps.any (fun p => p.1 == k)

/-- `URLSearchParams.get(k)`: value of the first pair with key `k`, else null. -/
def getParam (ps : List (String × String)) (k : String) : Option String :=
  (ps.find? (fun p => p.1 == k)).map Prod.snd

/-- `URLSearchParams.delete(k)`: remove every pair with key `k`. -/
def deleteParam (ps : List (String × String)) (k : String) : List (String × String) :=
  ps.filter (fun p => p.1 != k)

/-- `URLSearchParams.set(k, v)`: overwrite the first pair with key `k` in place
and drop the other pairs with that key; append `(k, v)` when `k` is absent. -/
def setParam : List (String × String) → String → String → List (String × String)
  | [], k, v => [(k, v)]
  | p :: ps, k, v => if p.1 == k then (k, v) :: deleteParam ps k else p :: setParam ps k v

/-- A browser URL / `Location`, structured: origin (scheme plus host), path,
ordered query parameters, and fragment (`""` when absent, else `"#..."`). -/
structure Url where
  origin : String
  pathname : String
  searchParams : List (String × String)
  hash : String
deriving Repr, DecidableEq

/-- Serialisation of the query parameters, as `location.search`: empty for no
parameters, else `?k1=v1&k2=v2&...` (percent-encoding is not modelled; keys
and values are taken verbatim). -/
def searchString (ps : List (String × String)) : String :=
  match ps with
  | [] => ""
  | _ => "?" ++ String.intercalate "&" (ps.map (fun p => p.1 ++ "=" ++ p.2))

/-- `location.href` / `url.href`: full URL string. -/
def Url.href (u : Url) : String :=
  u.origin ++ u.pathname ++ searchString u.searchParams ++ u.hash

/-- The local user record, as observed by this code: the `expired` flag and
the profile-embedded session id `profile.sid` (possibly absent). -/
structure User where
  expired : Bool
  sid : Option String
deriving Repr, DecidableEq

/-- Outcome of `authenticate`.  `ok` is a normal return to the caller.
`signinRedirect s` / `signoutRedirect s` mean the corresponding library
redirect call was issued with state `{ returnTo := s }` (no state when
`s = none`) and the function then awaited a never-resolving promise, so it
never returns control to its caller. -/
inductive AuthResult
  | ok
  | signinRedirect (returnTo : Option String)
  | signoutRedirect (returnTo : Option String)
deriving Repr, DecidableEq

/-- Oracle responses of the external library for one `authenticate` call, plus
the current browser URL.  `Except String` models a call that may throw (the
`String` is the opaque thrown value); inner `Option` models a nullable result.
`querySessionStatusResult` records the value of `sessionStatus?.sid`. -/
structure AuthWorld where
  url : Url
  getUserResult : Except String (Option User)
  signinSilentResult : Except String (Option User)
  querySessionStatusResult : Except String (Option String)
  signinRedirectResult : Except String Unit
  signoutRedirectResult : Except String Unit

/-- `getSessionIdFromUrl` (lines 121-132): if `sid_hint` is present, read its
first value, delete the parameter and rewrite the URL in place via
`history.replaceState` (no navigation), and return the value when truthy.
Returns the read result together with the URL left in the address bar. -/
def getSessionIdFromUrl (u : Url) : Option String × Url :=
  if hasParam u.searchParams "sid_hint" then
    let sid := getParam u.searchParams "sid_hint"
    let u2 : Url := { u with searchParams := deleteParam u.searchParams "sid_hint" }
    (jsTruthy sid, u2)
  else
    (none, u)

/-- `getReturnToUrl` (lines 134-138): the full current URL when the location
deviates from the application root (path not `/`, or non-empty query, or
truthy hash), else `undefined`. -/
def getReturnToUrl (u : Url) : Option String :=
  if u.pathname ≠ "/" ∨ searchString u.searchParams ≠ "" ∨ u.hash ≠ "" then
    some u.href
  else
    none

/-- `signin` (lines 93-105): build the payload (state carries `returnTo` when
`getReturnToUrl()` is truthy), call the library's `signinRedirect` — a throw
there propagates — then await a never-resolving promise. `url` is the current
browser location at call time. -/
def signin (w : AuthWorld) (url : Url) : Except String (AuthResult × Url) :=
  let payloadState := jsTruthy (getReturnToUrl url)
  match w.signinRedirectResult with
  | .error e => .error e
  | .ok _ => .ok (AuthResult.signinRedirect payloadState, url)

/-- `signout` (lines 107-119): same shape as `signin`, with the library's
`signoutRedirect`. -/
def signout (w : AuthWorld) (url : Url) : Except String (AuthResult × Url) :=
  let payloadState := jsTruthy (getReturnToUrl url)
  match w.signoutRedirectResult with
  | .error e => .error e
  | .ok _ => .ok (AuthResult.signoutRedirect payloadState, url)

/-- `authenticate` (lines 52-91).  Fetch the cached user (a throw propagates).
If absent or expired, silently renew: a throw or a null result both continue
as `signin` (the two source branches `catch` and `if (!user)` have the same
continuation, so they are merged into a null intermediate here).  Then resolve
a session id, preferring the URL hint; only when absent query the provider,
where a throw or a falsy id both continue as `signout`.  Finally compare the
resolved id with `user.profile.sid`: mismatch signs out, match returns
normally.  The result carries the URL left in the address bar. -/
def authenticate (w : AuthWorld) : Except String (AuthResult × Url) :=
  match w.getUserResult with
  | .error e => .error e
  | .ok cached =>
    let user : Option User :=
      if cached.isNone || (cached.map User.expired).getD false then
        match w.signinSilentResult with
        | .error _ => none
        | .ok renewed => renewed
      else cached
    match user with
    | none => signin w w.url
    | some user =>
      let r := getSessionIdFromUrl w.url
      let sessionId : Option String :=
        match r.1 with
        | some sid => some sid
        | none =>
          match w.querySessionStatusResult with
          | .error _ => none
          | .ok sidOpt => jsTruthy sidOpt
      match sessionId with
      | none => signout w r.2
      | some sid =>
        if (some sid : Option String) ≠ user.sid then signout w r.2
        else .ok (AuthResult.ok, r.2)

/-- The user handed back by a completed `signinRedirectCallback()` library
call: the `returnTo` carried in its redirect state (absent when the state is
null or has none; a carried URL string is modelled already parsed, as
`new URL` re-structures it) and `profile.sid`. -/
structure CallbackUser where
  stateReturnTo : Option Url
  sid : Option String
deriving Repr, DecidableEq

/-- `signinRedirectCallback` (lines 14-26), after the library call completed:
pick the state's `returnTo` or the caller-supplied default, set `sid_hint` to
the user's session id when truthy, and return the target handed to
`window.location.replace`; the function then awaits a never-resolving
promise, so it never returns after issuing that navigation. -/
def signinRedirectCallback (user : CallbackUser) (defaultReturnTo : Url) : Url :=
  let url : Url :=
    match user.stateReturnTo with
    | some r => r
    | none => defaultReturnTo
  match jsTruthy user.sid with
  | some sid => { url with searchParams := setParam url.searchParams "sid_hint" sid }
  | none => url

/-- Which provider redirect `signoutRedirect` requested. -/
inductive RedirectKind
  | signin
  | signout
deriving Repr, DecidableEq

/-- Observable outcome of `signoutRedirect`: whether the `beforeSignout` hook
ran (before the redirect call), which redirect was requested, and the
`returnTo` carried in its state. -/
structure SignoutOutcome where
  ranBeforeSignout : Bool
  kind : RedirectKind
  stateReturnTo : Option String
deriving Repr, DecidableEq

/-- `signoutRedirect` (lines 226-242, the copy with the hook): fetch the
cached user (a throw propagates); read the `returnTo` query parameter of the
current URL and carry it as state when truthy; with a user, run the
`beforeSignout` hook first when provided (modelled by the result its one
invocation would produce; a throw propagates) and request the provider
sign-out redirect; without a user request a sign-in redirect instead. -/
def signoutRedirect (url : Url) (getUserResult : Except String (Option User))
    (beforeSignout : Option (Except String Unit)) : Except String SignoutOutcome :=
  match getUserResult with
  | .error e => .error e
  | .ok userOpt =>
    let returnTo := getParam url.searchParams "returnTo"
    let state := jsTruthy returnTo
    match userOpt with
    | some _ =>
      match beforeSignout with
      | some hookResult =>
        match hookResult with
        | .error e => .error e
        | .ok _ =>
          .ok { ranBeforeSignout := true, kind := RedirectKind.signout, stateReturnTo := state }
      | none =>
        .ok { ranBeforeSignout := false, kind := RedirectKind.signout, stateReturnTo := state }
    | none =>
      .ok { ranBeforeSignout := false, kind := RedirectKind.signin, stateReturnTo := state }

/-- `signoutRedirect` (lines 38-50, the first copy): identical contract
without the hook parameter. -/
def signoutRedirectV1 (url : Url) (getUserResult : Except String (Option User)) :
    Except String SignoutOutcome :=
  match getUserResult with
  | .error e => .error e
  | .ok userOpt =>
    let state := jsTruthy (getParam url.searchParams "returnTo")
    match userOpt with
    | some _ =>
      .ok { ranBeforeSignout := false, kind := RedirectKind.signout, stateReturnTo := state }
    | none =>
      .ok { ranBeforeSignout := false, kind := RedirectKind.signin, stateReturnTo := state }

namespace Full

/-- `getSessionIdFromUrl` of the second copy (lines 330-341); same text as the
first copy. -/
def getSessionIdFromUrl (u : Url) : Option String × Url :=
  if hasParam u.searchParams "sid_hint" then
    let sid := getParam u.searchParams "sid_hint"
    let u2 : Url := { u with searchParams := deleteParam u.searchParams "sid_hint" }
    (jsTruthy sid, u2)
  else
    (none, u)

/-- `getReturnToUrl` of the second copy (lines 352-356); same text as the
first copy. -/
def getReturnToUrl (u : Url) : Option String :=
  if u.pathname ≠ "/" ∨ searchString u.searchParams ≠ "" ∨ u.hash ≠ "" then
    some u.href
  else
    none

/-- `signin` of the second copy (lines 294-306); same text as the first copy. -/
def signin (w : AuthWorld) (url : Url) : Except String (AuthResult × Url) :=
  let payloadState := jsTruthy (Full.getReturnToUrl url)
  match w.signinRedirectResult with
  | .error e => .error e
  | .ok _ => .ok (AuthResult.signinRedirect payloadState, url)

/-- `signout` of the second copy (lines 308-320); same text as the first copy. -/
def signout (w : AuthWorld) (url : Url) : Except String (AuthResult × Url) :=
  let payloadState := jsTruthy (Full.getReturnToUrl url)
  match w.signoutRedirectResult with
  | .error e => .error e
  | .ok _ => .ok (AuthResult.signoutRedirect payloadState, url)

/-- `authenticate` of the second copy (lines 253-292), taking full
`UserManagerSettings`; the body is the same text as the first copy, and the
settings enter only through the oracle responses in `w`. -/
def authenticate (w : AuthWorld) : Except String (AuthResult × Url) :=
  match w.getUserResult with
  | .error e => .error e
  | .ok cached =>
    let user : Option User :=
      if cached.isNone || (cached.map User.expired).getD false then
        match w.signinSilentResult with
        | .error _ => none
        | .ok renewed => renewed
      else cached
    match user with
    | none => Full.signin w w.url
    | some user =>
      let r := Full.getSessionIdFromUrl w.url
      let sessionId : Option String :=
        match r.1 with
        | some sid => some sid
        | none =>
          match w.querySessionStatusResult with
          | .error _ => none
          | .ok sidOpt => jsTruthy sidOpt
      match sessionId with
      | none => Full.signout w r.2
      | some sid =>
        if (some sid : Option String) ≠ user.sid then Full.signout w r.2
        else .ok (AuthResult.ok, r.2)

end Full

/-- The cached user is missing or expired, so `authenticate` enters the
silent-renewal branch. -/
def cachedMissingOrExpired (w : AuthWorld) : Prop :=
  w.getUserResult = .ok none ∨
    ∃ u0, w.getUserResult = .ok (some u0) ∧ u0.expired = true

/-- `authenticate` reaches its session-id step with `u` as the user: either a
valid (non-expired) cached user, or a user obtained by silent renewal after a
missing or expired cache. -/
def userResolvedTo (w : AuthWorld) (u : User) : Prop :=
  (w.getUserResult = .ok (some u) ∧ u.expired = false) ∨
    (cachedMissingOrExpired w ∧ w.signinSilentResult = .ok (some u))

/-- `authenticate` resolves `s` as the current session id: either the URL
hint yields it, or the URL yields none and the provider's session-status
query returns it (truthy). -/
def sessionResolvedTo (w : AuthWorld) (s : String) : Prop :=
  (getSessionIdFromUrl w.url).1 = some s ∨
    ((getSessionIdFromUrl w.url).1 = none ∧
      w.querySessionStatusResult = .ok (some s) ∧ s ≠ "")

/-! ## Lemmas on the `URLSearchParams` model -/

theorem hasParam_deleteParam (ps : List (String × String)) (k : String) :
    hasParam (deleteParam ps k) k = false := by
  induction ps with
  | nil => rfl
  | cons p ps ih =>
    by_cases h : p.1 = k
    · simp only [deleteParam, List.filter_cons] at *
      simp [h, ih]
    · simp only [deleteParam, List.filter_cons] at *
      simp [hasParam, h, ih]

theorem deleteParam_idem (ps : List (String × String)) (k : String) :
    deleteParam (deleteParam ps k) k = deleteParam ps k := by
  induction ps with
  | nil => rfl
  | cons p ps ih =>
    by_cases h : p.1 = k
    · simp [deleteParam, h, ih]
    · simp [deleteParam, h, ih]

theorem getParam_eq_none_of_hasParam_false (ps : List (String × String)) (k : String)
    (h : hasParam ps k = false) : getParam ps k = none := by
  induction ps with
  | nil => rfl
  | cons p ps ih =>
    simp only [hasParam, List.any_cons, Bool.or_eq_false_iff] at h
    simp only [getParam, List.find?]
    rw [h.1]
    exact ih (by simpa [hasParam] using h.2)

theorem getParam_setParam (ps : List (String × String)) (k v : String) :
    getParam (setParam ps k v) k = some v := by
  induction ps with
  | nil => simp [setParam, getParam]
  | cons p ps ih =>
    by_cases h : p.1 = k
    · simp [setParam, getParam, h]
    · simpa [setParam, getParam, h] using ih

theorem deleteParam_setParam (ps : List (String × String)) (k v : String) :
    deleteParam (setParam ps k v) k = deleteParam ps k := by
  induction ps with
  | nil => simp [setParam, deleteParam]
  | cons p ps ih =>
    by_cases h : p.1 = k
    · simp [setParam, deleteParam, h, deleteParam_idem]
    · simpa [setParam, deleteParam, h] using ih

theorem searchString_eq_empty_iff (ps : List (String × String)) :
    searchString ps = "" ↔ ps = [] := by
  cases ps with
  | nil => simp [searchString]
  | cons p ps =>
    simp only [searchString]
    constructor
    · intro h
      have hlen := congrArg String.length h
      rw [String.length_append] at hlen
      have h1 : ("?" : String).length = 1 := rfl
      have h0 : ("" : String).length = 0 := rfl
      omega
    · intro h
      exact absurd h (by simp)

/-! ## Stage lemmas for `authenticate` -/

/-- The session-id stage of `authenticate` (everything after the user step),
for a fixed resolved user. -/
def sessionStage (w : AuthWorld) (user : User) : Except String (AuthResult × Url) :=
  let r := getSessionIdFromUrl w.url
  let sessionId : Option String :=
    match r.1 with
    | some sid => some sid
    | none =>
      match w.querySessionStatusResult with
      | .error _ => none
      | .ok sidOpt => jsTruthy sidOpt
  match sessionId with
  | none => signout w r.2
  | some sid =>
    if (some sid : Option String) ≠ user.sid then signout w r.2
    else .ok (AuthResult.ok, r.2)

theorem authenticate_userResolved (w : AuthWorld) (u : User) (hu : userResolvedTo w u) :
    authenticate w = sessionStage w u := by
  rcases hu with ⟨hgu, hexp⟩ | ⟨hmiss, hss⟩
  · simp [authenticate, sessionStage, hgu, hexp]
  · rcases hmiss with hgu | ⟨u0, hgu, hexp⟩
    · simp [authenticate, sessionStage, hgu, hss]
    · simp [authenticate, sessionStage, hgu, hexp, hss]

theorem authenticate_renewFailed (w : AuthWorld) (hmiss : cachedMissingOrExpired w)
    (hfail : (∃ e, w.signinSilentResult = .error e) ∨ w.signinSilentResult = .ok none) :
    authenticate w = signin w w.url := by
  rcases hmiss with hgu | ⟨u0, hgu, hexp⟩
  · rcases hfail with ⟨e, hss⟩ | hss <;> simp [authenticate, hgu, hss]
  · rcases hfail with ⟨e, hss⟩ | hss <;> simp [authenticate, hgu, hexp, hss]

theorem sessionStage_of_url_sid (w : AuthWorld) (u : User) (s : String)
    (hs : (getSessionIdFromUrl w.url).1 = some s) :
    sessionStage w u =
      if (some s : Option String) ≠ u.sid then signout w (getSessionIdFromUrl w.url).2
      else .ok (AuthResult.ok, (getSessionIdFromUrl w.url).2) := by
  simp [sessionStage, hs]

theorem sessionStage_of_query_sid (w : AuthWorld) (u : User) (s : String)
    (h0 : (getSessionIdFromUrl w.url).1 = none)
    (hq : w.querySessionStatusResult = .ok (some s)) (hne : s ≠ "") :
    sessionStage w u =
      if (some s : Option String) ≠ u.sid then signout w (getSessionIdFromUrl w.url).2
      else .ok (AuthResult.ok, (getSessionIdFromUrl w.url).2) := by
  simp [sessionStage, h0, hq, jsTruthy, hne]

theorem sessionStage_of_query_error (w : AuthWorld) (u : User) (e : String)
    (h0 : (getSessionIdFromUrl w.url).1 = none)
    (hq : w.querySessionStatusResult = .error e) :
    sessionStage w u = signout w (getSessionIdFromUrl w.url).2 := by
  simp [sessionStage, h0, hq]

theorem sessionStage_of_query_no_sid (w : AuthWorld) (u : User) (o : Option String)
    (h0 : (getSessionIdFromUrl w.url).1 = none)
    (hq : w.querySessionStatusResult = .ok o) (ho : jsTruthy o = none) :
    sessionStage w u = signout w (getSessionIdFromUrl w.url).2 := by
  simp [sessionStage, h0, hq, ho]

/-- The resolved session id matches the user's profile session id: the stage
returns normally. -/
theorem sessionStage_match (w : AuthWorld) (u : User) (s : String)
    (hs : sessionResolvedTo w s) (hsid : u.sid = some s) :
    sessionStage w u = .ok (AuthResult.ok, (getSessionIdFromUrl w.url).2) := by
  rcases hs with hs | ⟨h0, hq, hne⟩
  · rw [sessionStage_of_url_sid w u s hs, if_neg]
    simp [hsid]
  · rw [sessionStage_of_query_sid w u s h0 hq hne, if_neg]
    simp [hsid]

/-- The resolved session id differs from the user's profile session id: the
stage signs out. -/
theorem sessionStage_mismatch (w : AuthWorld) (u : User) (s : String)
    (hs : sessionResolvedTo w s) (hne : u.sid ≠ some s) :
    sessionStage w u = signout w (getSessionIdFromUrl w.url).2 := by
  have hcond : (some s : Option String) ≠ u.sid := fun hc => hne hc.symm
  rcases hs with hs | ⟨h0, hq, hne2⟩
  · rw [sessionStage_of_url_sid w u s hs, if_pos hcond]
  · rw [sessionStage_of_query_sid w u s h0 hq hne2, if_pos hcond]

/-! ## Concrete inputs used by the witnesses -/

def exUser : User := { expired := false, sid := some "abc" }

def rootUrl : Url :=
  { origin := "https://app.example", pathname := "/", searchParams := [], hash := "" }

def hintUrl : Url :=
  { origin := "https://app.example", pathname := "/", searchParams := [("sid_hint", "abc")],
    hash := "" }

def wrongHintUrl : Url :=
  { origin := "https://app.example", pathname := "/", searchParams := [("sid_hint", "xyz")],
    hash := "" }

def wMatch : AuthWorld :=
  { url := hintUrl, getUserResult := .ok (some exUser), signinSilentResult := .ok none,
    querySessionStatusResult := .error "unavailable", signinRedirectResult := .ok (),
    signoutRedirectResult := .ok () }

def wRenewFail : AuthWorld :=
  { url := rootUrl, getUserResult := .ok none, signinSilentResult := .error "boom",
    querySessionStatusResult := .ok none, signinRedirectResult := .ok (),
    signoutRedirectResult := .ok () }

def wMismatch : AuthWorld :=
  { url := wrongHintUrl, getUserResult := .ok (some exUser), signinSilentResult := .ok none,
    querySessionStatusResult := .ok none, signinRedirectResult := .ok (),
    signoutRedirectResult := .ok () }

def wPrefersUrl : AuthWorld :=
  { url := hintUrl, getUserResult := .ok (some exUser), signinSilentResult := .ok none,
    querySessionStatusResult := .error "ignored", signinRedirectResult := .ok (),
    signoutRedirectResult := .ok () }

def wGetUserFail : AuthWorld :=
  { url := rootUrl, getUserResult := .error "db", signinSilentResult := .ok none,
    querySessionStatusResult := .ok none, signinRedirectResult := .ok (),
    signoutRedirectResult := .ok () }

/-! ## Claim theorems -/

/-- C1: with a resolved user whose profile-embedded session id equals the
resolved current session id — whether resolved from the URL hint or from the
provider's session-status query — `authenticate` returns normally, issuing no
redirect. -/
theorem authenticate_match_returns_ok (w : AuthWorld) (u : User) (s : String)
    (hu : userResolvedTo w u) (hs : sessionResolvedTo w s) (hsid : u.sid = some s) :
    authenticate w = .ok (AuthResult.ok, (getSessionIdFromUrl w.url).2) := by
  rw [authenticate_userResolved w u hu, sessionStage_match w u s hs hsid]

/-- Witness for C1: cached user with sid `abc`, URL hint `sid_hint=abc`. -/
theorem authenticate_match_returns_ok_witness :
    userResolvedTo wMatch exUser ∧ sessionResolvedTo wMatch "abc" ∧ exUser.sid = some "abc" ∧
    authenticate wMatch = .ok (AuthResult.ok, (getSessionIdFromUrl wMatch.url).2) :=
  ⟨Or.inl ⟨rfl, rfl⟩, Or.inl (by decide), rfl,
    authenticate_match_returns_ok wMatch exUser "abc" (Or.inl ⟨rfl, rfl⟩) (Or.inl (by decide))
      rfl⟩

/-- C2: when the cached user is missing or expired and the silent-renewal
attempt throws or yields no user, `authenticate` issues the sign-in redirect
(`AuthResult.signinRedirect` marks that the navigation was triggered and the
function then suspends forever on a never-resolving promise, returning no
control to its caller). -/
theorem authenticate_renew_failure_signin_redirect (w : AuthWorld)
    (hmiss : cachedMissingOrExpired w)
    (hfail : (∃ e, w.signinSilentResult = .error e) ∨ w.signinSilentResult = .ok none)
    (hok : w.signinRedirectResult = .ok ()) :
    authenticate w = .ok (AuthResult.signinRedirect (jsTruthy (getReturnToUrl w.url)), w.url) := by
  rw [authenticate_renewFailed w hmiss hfail]
  simp [signin, hok]

/-- Witness for C2: no cached user, silent renewal throws. -/
theorem authenticate_renew_failure_signin_redirect_witness :
    cachedMissingOrExpired wRenewFail ∧
    ((∃ e, wRenewFail.signinSilentResult = .error e) ∨
      wRenewFail.signinSilentResult = .ok none) ∧
    wRenewFail.signinRedirectResult = .ok () ∧
    authenticate wRenewFail =
      .ok (AuthResult.signinRedirect (jsTruthy (getReturnToUrl wRenewFail.url)), wRenewFail.url) :=
  ⟨Or.inl rfl, Or.inl ⟨"boom", rfl⟩, rfl,
    authenticate_renew_failure_signin_redirect wRenewFail (Or.inl rfl) (Or.inl ⟨"boom", rfl⟩)
      rfl⟩

/-- C3: whenever `authenticate` reaches the comparison step with a resolved
session id that differs from the resolved user's profile-embedded session id
— the id coming from the URL hint or from the provider's query alike — it
issues the sign-out redirect (and then suspends forever). -/
theorem authenticate_sid_mismatch_signout_redirect (w : AuthWorld) (u : User) (s : String)
    (hu : userResolvedTo w u) (hs : sessionResolvedTo w s)
    (hne : u.sid ≠ some s) (hok : w.signoutRedirectResult = .ok ()) :
    authenticate w =
      .ok (AuthResult.signoutRedirect (jsTruthy (getReturnToUrl (getSessionIdFromUrl w.url).2)),
        (getSessionIdFromUrl w.url).2) := by
  rw [authenticate_userResolved w u hu, sessionStage_mismatch w u s hs hne]
  simp [signout, hok]

/-- Witness for C3: cached sid `abc`, URL hint `sid_hint=xyz`. -/
theorem authenticate_sid_mismatch_signout_redirect_witness :
    userResolvedTo wMismatch exUser ∧ sessionResolvedTo wMismatch "xyz" ∧
    exUser.sid ≠ some "xyz" ∧ wMismatch.signoutRedirectResult = .ok () ∧
    authenticate wMismatch =
      .ok (AuthResult.signoutRedirect
        (jsTruthy (getReturnToUrl (getSessionIdFromUrl wMismatch.url).2)),
        (getSessionIdFromUrl wMismatch.url).2) :=
  ⟨Or.inl ⟨rfl, rfl⟩, Or.inl (by decide), by decide, rfl,
    authenticate_sid_mismatch_signout_redirect wMismatch exUser "xyz" (Or.inl ⟨rfl, rfl⟩)
      (Or.inl (by decide)) (by decide) rfl⟩

/-- C4: session-id resolution prefers the URL hint — when the URL yields an
id the result is independent of the provider's session-status response — and
when the URL yields none and the query throws or yields no (truthy) id,
`authenticate` issues the sign-out redirect. -/
theorem authenticate_sid_resolution_prefers_url (w : AuthWorld) (u : User) (e : String)
    (hu : userResolvedTo w u) :
    (∀ s, (getSessionIdFromUrl w.url).1 = some s →
      ∀ q, authenticate { w with querySessionStatusResult := q } = authenticate w) ∧
    ((getSessionIdFromUrl w.url).1 = none → w.querySessionStatusResult = .error e →
      w.signoutRedirectResult = .ok () →
      authenticate w =
        .ok (AuthResult.signoutRedirect (jsTruthy (getReturnToUrl (getSessionIdFromUrl w.url).2)),
          (getSessionIdFromUrl w.url).2)) ∧
    (∀ o, (getSessionIdFromUrl w.url).1 = none → w.querySessionStatusResult = .ok o →
      jsTruthy o = none → w.signoutRedirectResult = .ok () →
      authenticate w =
        .ok (AuthResult.signoutRedirect (jsTruthy (getReturnToUrl (getSessionIdFromUrl w.url).2)),
          (getSessionIdFromUrl w.url).2)) := by
  refine ⟨?_, ?_, ?_⟩
  · intro s hs q
    have hu2 : userResolvedTo { w with querySessionStatusResult := q } u := hu
    rw [authenticate_userResolved _ u hu2, authenticate_userResolved w u hu]
    simp [sessionStage, hs, signout]
  · intro h0 hq hok
    rw [authenticate_userResolved w u hu, sessionStage_of_query_error w u e h0 hq]
    simp [signout, hok]
  · intro o h0 hq ho hok
    rw [authenticate_userResolved w u hu, sessionStage_of_query_no_sid w u o h0 hq ho]
    simp [signout, hok]

/-- Witness for C4: with the hint `sid_hint=abc` in the URL, replacing the
(failing) session-status response by a successful one changes nothing. -/
theorem authenticate_sid_resolution_prefers_url_witness :
    userResolvedTo wPrefersUrl exUser ∧ (getSessionIdFromUrl wPrefersUrl.url).1 = some "abc" ∧
    authenticate { wPrefersUrl with querySessionStatusResult := .ok (some "other") } =
      authenticate wPrefersUrl :=
  ⟨Or.inl ⟨rfl, rfl⟩, by decide,
    (authenticate_sid_resolution_prefers_url wPrefersUrl exUser "ignored"
        (Or.inl ⟨rfl, rfl⟩)).1 "abc" (by decide) (.ok (some "other"))⟩

/-- C5: error policy — an external-library throw during silent renewal is
converted to the sign-in redirect and one during the session-status query to
the sign-out redirect, never surfacing to the caller; a throw from fetching
the cached user, or from the redirect call itself, propagates uncaught. -/
theorem authenticate_error_policy (w : AuthWorld) (u : User) (e e2 : String) :
    (w.getUserResult = .error e → authenticate w = .error e) ∧
    (cachedMissingOrExpired w → w.signinSilentResult = .error e →
      w.signinRedirectResult = .ok () →
      authenticate w =
        .ok (AuthResult.signinRedirect (jsTruthy (getReturnToUrl w.url)), w.url)) ∧
    (cachedMissingOrExpired w → w.signinSilentResult = .error e →
      w.signinRedirectResult = .error e2 → authenticate w = .error e2) ∧
    (userResolvedTo w u → (getSessionIdFromUrl w.url).1 = none →
      w.querySessionStatusResult = .error e → w.signoutRedirectResult = .ok () →
      authenticate w =
        .ok (AuthResult.signoutRedirect (jsTruthy (getReturnToUrl (getSessionIdFromUrl w.url).2)),
          (getSessionIdFromUrl w.url).2)) ∧
    (userResolvedTo w u → (getSessionIdFromUrl w.url).1 = none →
      w.querySessionStatusResult = .error e → w.signoutRedirectResult = .error e2 →
      authenticate w = .error e2) := by
  refine ⟨?_, ?_, ?_, ?_, ?_⟩
  · intro h
    simp [authenticate, h]
  · intro hmiss hss hok
    rw [authenticate_renewFailed w hmiss (Or.inl ⟨e, hss⟩)]
    simp [signin, hok]
  · intro hmiss hss herr
    rw [authenticate_renewFailed w hmiss (Or.inl ⟨e, hss⟩)]
    simp [signin, herr]
  · intro hu h0 hq hok
    rw [authenticate_userResolved w u hu, sessionStage_of_query_error w u e h0 hq]
    simp [signout, hok]
  · intro hu h0 hq herr
    rw [authenticate_userResolved w u hu, sessionStage_of_query_error w u e h0 hq]
    simp [signout, herr]

/-- Witness for C5: a throw from `getUser` propagates to the caller. -/
theorem authenticate_error_policy_witness :
    wGetUserFail.getUserResult = .error "db" ∧ authenticate wGetUserFail = .error "db" :=
  ⟨rfl, (authenticate_error_policy wGetUserFail exUser "db" "z").1 rfl⟩

/-- C10: the two copies of `authenticate` in the source (restricted options,
lines 52-91; full `UserManagerSettings`, lines 253-292) are behaviourally
equivalent: on every world (browser URL, cached-user state, library
responses) they produce the same decision and the same final URL. -/
theorem authenticate_copies_equivalent (w : AuthWorld) :
    Full.authenticate w = authenticate w :=
  rfl

/-- C9: `getReturnToUrl` returns `undefined` exactly when the location is the
application root (`/`, no query, no hash), and the full current URL string in
every other case. -/
theorem getReturnToUrl_root_iff (u : Url) :
    (getReturnToUrl u = none ↔ u.pathname = "/" ∧ u.searchParams = [] ∧ u.hash = "") ∧
    (¬(u.pathname = "/" ∧ u.searchParams = [] ∧ u.hash = "") →
      getReturnToUrl u = some u.href) := by
  have hiff : getReturnToUrl u = none ↔
      (u.pathname = "/" ∧ u.searchParams = [] ∧ u.hash = "") := by
    constructor
    · intro hnone
      unfold getReturnToUrl at hnone
      by_cases hc : u.pathname ≠ "/" ∨ searchString u.searchParams ≠ "" ∨ u.hash ≠ ""
      · rw [if_pos hc] at hnone
        exact absurd hnone (by simp)
      · push_neg at hc
        exact ⟨hc.1, (searchString_eq_empty_iff _).1 hc.2.1, hc.2.2⟩
    · intro hroot
      unfold getReturnToUrl
      rw [if_neg]
      push_neg
      exact ⟨hroot.1, (searchString_eq_empty_iff _).2 hroot.2.1, hroot.2.2⟩
  refine ⟨hiff, ?_⟩
  intro h
  unfold getReturnToUrl
  rw [if_pos]
  by_contra hc
  push_neg at hc
  exact h ⟨hc.1, (searchString_eq_empty_iff _).1 hc.2.1, hc.2.2⟩

/-- Witness for C9 at a concrete non-root location. -/
theorem getReturnToUrl_root_iff_witness :
    ¬((Url.mk "https://app.example" "/inbox" [] "").pathname = "/" ∧
        (Url.mk "https://app.example" "/inbox" [] "").searchParams = [] ∧
        (Url.mk "https://app.example" "/inbox" [] "").hash = "") ∧
    getReturnToUrl (Url.mk "https://app.example" "/inbox" [] "") =
      some "https://app.example/inbox" :=
  ⟨by decide, (getReturnToUrl_root_iff (Url.mk "https://app.example" "/inbox" [] "")).2 (by decide)⟩

/-- Reading a URL with no `sid_hint` parameter yields nothing and leaves the
URL untouched. -/
theorem getSessionIdFromUrl_of_no_hint (u : Url)
    (h : hasParam u.searchParams "sid_hint" = false) :
    getSessionIdFromUrl u = (none, u) := by
  simp [getSessionIdFromUrl, h]

/-- C6: when the current URL contains a `sid_hint` query parameter, one read
removes it from the URL left in place (no navigation is modelled: only the
address-bar URL changes), returns its value when one is present (truthy), and
a subsequent read of the resulting URL yields no session id and leaves the
URL unchanged. -/
theorem getSessionIdFromUrl_consumes_hint (u : Url)
    (h : hasParam u.searchParams "sid_hint" = true) :
    hasParam ((getSessionIdFromUrl u).2).searchParams "sid_hint" = false ∧
    getSessionIdFromUrl ((getSessionIdFromUrl u).2) = (none, (getSessionIdFromUrl u).2) ∧
    (∀ s, getParam u.searchParams "sid_hint" = some s → s ≠ "" →
      (getSessionIdFromUrl u).1 = some s) := by
  have h2 : ((getSessionIdFromUrl u).2).searchParams = deleteParam u.searchParams "sid_hint" := by
    simp [getSessionIdFromUrl, h]
  have hdel : hasParam ((getSessionIdFromUrl u).2).searchParams "sid_hint" = false := by
    rw [h2]; exact hasParam_deleteParam _ _
  refine ⟨hdel, getSessionIdFromUrl_of_no_hint _ hdel, ?_⟩
  intro s hs hne
  simp [getSessionIdFromUrl, h, hs, jsTruthy, hne]

/-- C7: a completed sign-in callback navigates (replace-style, then suspends
forever) to the return-to URL carried in the redirect state — the
caller-supplied default when none is carried — with the user's session id set
as the `sid_hint` query parameter; apart from that parameter the target is
unchanged. -/
theorem signinRedirectCallback_navigates_with_hint (user : CallbackUser) (d : Url) (s : String)
    (hs : user.sid = some s) (hne : s ≠ "") :
    (signinRedirectCallback user d).origin = (user.stateReturnTo.getD d).origin ∧
    (signinRedirectCallback user d).pathname = (user.stateReturnTo.getD d).pathname ∧
    (signinRedirectCallback user d).hash = (user.stateReturnTo.getD d).hash ∧
    getParam (signinRedirectCallback user d).searchParams "sid_hint" = some s ∧
    deleteParam (signinRedirectCallback user d).searchParams "sid_hint" =
      deleteParam (user.stateReturnTo.getD d).searchParams "sid_hint" := by
  cases huser : user.stateReturnTo <;>
    simp [signinRedirectCallback, hs, jsTruthy, hne, huser, getParam_setParam,
      deleteParam_setParam]

def exReturnUrl : Url :=
  { origin := "https://app.example", pathname := "/inbox", searchParams := [("x", "1")],
    hash := "" }

def exCallbackUser : CallbackUser := { stateReturnTo := some exReturnUrl, sid := some "abc" }

/-- Witness for C7: state carries a return-to URL, user session id `abc`. -/
theorem signinRedirectCallback_navigates_with_hint_witness :
    exCallbackUser.sid = some "abc" ∧ ("abc" : String) ≠ "" ∧
    ((signinRedirectCallback exCallbackUser rootUrl).origin =
        (exCallbackUser.stateReturnTo.getD rootUrl).origin ∧
      (signinRedirectCallback exCallbackUser rootUrl).pathname =
        (exCallbackUser.stateReturnTo.getD rootUrl).pathname ∧
      (signinRedirectCallback exCallbackUser rootUrl).hash =
        (exCallbackUser.stateReturnTo.getD rootUrl).hash ∧
      getParam (signinRedirectCallback exCallbackUser rootUrl).searchParams "sid_hint" =
        some "abc" ∧
      deleteParam (signinRedirectCallback exCallbackUser rootUrl).searchParams "sid_hint" =
        deleteParam (exCallbackUser.stateReturnTo.getD rootUrl).searchParams "sid_hint") :=
  ⟨rfl, by decide,
    signinRedirectCallback_navigates_with_hint exCallbackUser rootUrl "abc" rfl (by decide)⟩

/-- C8: `signoutRedirect` requests the provider sign-out redirect when a
cached user exists (running the `beforeSignout` hook first when provided) and
a sign-in redirect when none exists; in all cases the redirect state carries
the value of the `returnTo` query parameter when a (truthy) one is present
and nothing otherwise; the first, hook-less copy (lines 38-50) behaves as the
hook-bearing copy with no hook. -/
theorem signoutRedirect_contract (url : Url) (gu : Except String (Option User))
    (u : User) (hook : Except String Unit) :
    (gu = .ok (some u) →
      signoutRedirect url gu none =
        .ok ⟨false, RedirectKind.signout,
          jsTruthy (getParam url.searchParams "returnTo")⟩) ∧
    (gu = .ok (some u) → hook = .ok () →
      signoutRedirect url gu (some hook) =
        .ok ⟨true, RedirectKind.signout,
          jsTruthy (getParam url.searchParams "returnTo")⟩) ∧
    (gu = .ok none → ∀ hk,
      signoutRedirect url gu hk =
        .ok ⟨false, RedirectKind.signin,
          jsTruthy (getParam url.searchParams "returnTo")⟩) ∧
    signoutRedirectV1 url gu = signoutRedirect url gu none := by
  refine ⟨?_, ?_, ?_, ?_⟩
  · intro h
    simp [signoutRedirect, h]
  · intro h hh
    simp [signoutRedirect, h, hh]
  · intro h hk
    simp [signoutRedirect, h]
  · cases gu with
    | error e => rfl
    | ok uo => cases uo <;> rfl

def signoutUrl : Url :=
  { origin := "https://app.example", pathname := "/",
    searchParams := [("returnTo", "https://app.example/inbox")], hash := "" }

/-- Witness for C8: cached user present, hook provided, `returnTo` parameter
present — sign-out redirect, hook ran, state carries the parameter value. -/
theorem signoutRedirect_contract_witness :
    signoutRedirect signoutUrl (.ok (some exUser)) (some (.ok ())) =
      .ok ⟨true, RedirectKind.signout, some "https://app.example/inbox"⟩ :=
  (signoutRedirect_contract signoutUrl (.ok (some exUser)) exUser (.ok ())).2.1 rfl rfl

/-- Witness for C6 on a URL carrying `sid_hint=abc` plus another parameter. -/
theorem getSessionIdFromUrl_consumes_hint_witness :
    hasParam (Url.mk "https://app.example" "/" [("a", "1"), ("sid_hint", "abc")] "").searchParams
        "sid_hint" = true ∧
    (hasParam ((getSessionIdFromUrl
          (Url.mk "https://app.example" "/" [("a", "1"), ("sid_hint", "abc")] "")).2).searchParams
        "sid_hint" = false ∧
      getSessionIdFromUrl ((getSessionIdFromUrl
          (Url.mk "https://app.example" "/" [("a", "1"), ("sid_hint", "abc")] "")).2) =
        (none, (getSessionIdFromUrl
          (Url.mk "https://app.example" "/" [("a", "1"), ("sid_hint", "abc")] "")).2) ∧
      (∀ s, getParam (Url.mk "https://app.example" "/"
            [("a", "1"), ("sid_hint", "abc")] "").searchParams "sid_hint" = some s → s ≠ "" →
        (getSessionIdFromUrl
          (Url.mk "https://app.example" "/" [("a", "1"), ("sid_hint", "abc")] "")).1 = some s)) :=
  ⟨by decide, getSessionIdFromUrl_consumes_hint _ (by decide)⟩

end OidcKit
